import Mathlib

/-!
Verification development for the natural-language calendar assistant
(`agent.py` of the calendar_scheduler repository).

The Python source is shallowly embedded:
* the `re` patterns of `agent.py` are values of a small regular-expression
  type `RE`, executed by a backtracking matcher (`mrun`) whose preference
  order mirrors the Python `re` module (ordered alternation, greedy or lazy
  character-class repetition, word boundaries, leftmost search);
* `datetime` values are a record `DT` with an optional fixed UTC offset in
  minutes; `pytz` localization to Asia/Kolkata attaches offset 330, and
  `astimezone` converts via civil-calendar arithmetic;
* the third-party `dateparser.parse` calls are abstract oracles carried by
  an environment `Env` (one for the configured call, one for the plain
  call), returning `Except` to model that a Python call may raise;
* the calendar collaborator operations are abstract `Except`-valued fields
  of `Env`, so that theorems quantifying over them express "no collaborator
  call influences the reply".
-/

namespace Agent

/-! ### Character classes (Python `re` semantics, ASCII range) -/

def isWordChar (c : Char) : Bool := c.isAlphanum || c == '_'

def isDigitChar (c : Char) : Bool := c.isDigit

def isSpaceChar (c : Char) : Bool :=
  c == ' ' || c == '\t' || c == '\n' || c.toNat == 13 || c.toNat == 11 || c.toNat == 12

/-! ### List-of-characters utilities -/

def isPrefixL : List Char → List Char → Bool
  | [], _ => true
  | _ :: _, [] => false
  | a :: as, b :: bs => a == b && isPrefixL as bs

def stripPre : List Char → List Char → Option (List Char)
  | [], s => some s
  | _ :: _, [] => none
  | a :: as, b :: bs => if a == b then stripPre as bs else none

def ciStripPre : List Char → List Char → Option (List Char)
  | [], s => some s
  | _ :: _, [] => none
  | a :: as, b :: bs => if a == b.toLower then ciStripPre as bs else none

def containsSubL (pat : List Char) : List Char → Bool
  | [] => pat.isEmpty
  | c :: cs => isPrefixL pat (c :: cs) || containsSubL pat cs

/-- Python `str.__contains__`: substring containment. -/
def containsSubS (s pat : String) : Bool := containsSubL pat.toList s.toList

def replaceAllFuel (pat rep : List Char) : Nat → List Char → List Char
  | 0, s => s
  | _ + 1, [] => []
  | n + 1, c :: cs =>
    match stripPre pat (c :: cs) with
    | some rest =>
      if pat.isEmpty then c :: cs else rep ++ replaceAllFuel pat rep n rest
    | none => c :: replaceAllFuel pat rep n cs

/-- Python `str.replace`: replace every non-overlapping occurrence, left to right. -/
def replaceAllS (s pat rep : String) : String :=
  (replaceAllFuel pat.toList rep.toList (s.toList.length + 1) s.toList).asString

def stripBothL (bad : List Char) (s : List Char) : List Char :=
  ((s.dropWhile (fun c => bad.contains c)).reverse.dropWhile
    (fun c => bad.contains c)).reverse

/-- Python `str.strip(chars)`: remove leading and trailing characters of the set. -/
def stripBothS (s bad : String) : String := (stripBothL bad.toList s.toList).asString

def lowerS (s : String) : String := (s.toList.map Char.toLower).asString

/-! ### A small regular-expression engine

Only the constructs used by the patterns of `agent.py`: character classes,
literals (case-sensitive and case-insensitive), sequence, ordered
alternation, greedy option, greedy or lazy repetition of a character class,
word boundary, and numbered capture groups.  The matcher returns the list
of possible outcomes in Python preference order (first = the one Python
picks), so leftmost search, `findall` and `sub` below agree with `re`. -/

inductive RE where
  | eps : RE
  | cls : (Char → Bool) → RE
  | lit : List Char → RE
  | cilit : List Char → RE
  | seq : RE → RE → RE
  | alt : RE → RE → RE
  | opt : RE → RE
  | starCls : Bool → (Char → Bool) → RE
  | bnd : RE
  | grp : Nat → RE → RE

/-- One matcher outcome: the remaining input, the character just before it
(for word boundaries), and the captures made. -/
structure MOut where
  rest : List Char
  prev : Option Char
  caps : List (Nat × List Char)

/-- Splits of a maximal character-class run, shortest consumed first. -/
def clsSplits (p : Char → Bool) : List Char → List (List Char × List Char)
  | [] => [([], [])]
  | c :: cs =>
    if p c then
      ([], c :: cs) :: (clsSplits p cs).map (fun pr => (c :: pr.1, pr.2))
    else [([], c :: cs)]

def lastOr (l : List Char) (prev : Option Char) : Option Char :=
  match l.getLast? with
  | some c => some c
  | none => prev

def mrun : RE → Option Char → List Char → List MOut
  | .eps, prev, inp => [⟨inp, prev, []⟩]
  | .cls p, _, inp =>
    match inp with
    | [] => []
    | c :: cs => if p c then [⟨cs, some c, []⟩] else []
  | .lit l, prev, inp =>
    match stripPre l inp with
    | some rest => [⟨rest, lastOr (inp.take l.length) prev, []⟩]
    | none => []
  | .cilit l, prev, inp =>
    match ciStripPre l inp with
    | some rest => [⟨rest, lastOr (inp.take l.length) prev, []⟩]
    | none => []
  | .seq a b, prev, inp =>
    (mrun a prev inp).flatMap (fun oa =>
      (mrun b oa.prev oa.rest).map (fun ob => ⟨ob.rest, ob.prev, ob.caps ++ oa.caps⟩))
  | .alt a b, prev, inp => mrun a prev inp ++ mrun b prev inp
  | .opt a, prev, inp => mrun a prev inp ++ [⟨inp, prev, []⟩]
  | .starCls greedy p, prev, inp =>
    let sp := clsSplits p inp
    let sp := if greedy then sp.reverse else sp
    sp.map (fun pr => ⟨pr.2, lastOr pr.1 prev, []⟩)
  | .bnd, prev, inp =>
    let pw := match prev with | some c => isWordChar c | none => false
    let cw := match inp with | c :: _ => isWordChar c | [] => false
    if pw != cw then [⟨inp, prev, []⟩] else []
  | .grp n a, prev, inp =>
    (mrun a prev inp).map (fun o =>
      ⟨o.rest, o.prev, (n, inp.take (inp.length - o.rest.length)) :: o.caps⟩)

/-- Leftmost match: the prefix before the match and the preferred outcome. -/
def searchCore (r : RE) : Option Char → List Char → Option (List Char × MOut)
  | prev, inp =>
    match mrun r prev inp with
    | o :: _ => some ([], o)
    | [] =>
      match inp with
      | [] => none
      | c :: cs => (searchCore r (some c) cs).map (fun pr => (c :: pr.1, pr.2))

/-- A search result: text before the match, the matched text, the text after,
and the captures. -/
structure SRes where
  pre : List Char
  mat : List Char
  rest : List Char
  caps : List (Nat × List Char)

def reSearch (r : RE) (inp : List Char) : Option SRes :=
  match searchCore r none inp with
  | some (pre, o) =>
    let afterPre := inp.drop pre.length
    some ⟨pre, afterPre.take (afterPre.length - o.rest.length), o.rest, o.caps⟩
  | none => none

/-- Python `re.search` on a string (leftmost match, or `none`). -/
def reSearchS (r : RE) (s : String) : Option SRes := reSearch r s.toList

/-- Full matched text of a `re.search`, as a string (`m.group(0)`). -/
def reMatch0 (r : RE) (s : String) : Option String :=
  (reSearchS r s).map (fun m => m.mat.asString)

/-- Capture group `n` of a search result, as a string. -/
def groupStr (m : SRes) (n : Nat) : String := ((m.caps.lookup n).getD []).asString

def findallCore (r : RE) : Nat → Option Char → List Char → List (List Char)
  | 0, _, _ => []
  | n + 1, prev, inp =>
    match searchCore r prev inp with
    | none => []
    | some (pre, o) =>
      let afterPre := inp.drop pre.length
      let m := afterPre.take (afterPre.length - o.rest.length)
      if m.isEmpty then []
      else m :: findallCore r n (lastOr m prev) o.rest

/-- Python `re.findall` (full matches; all patterns used consume at least one
character, so the zero-width case never occurs). -/
def reFindallS (r : RE) (s : String) : List String :=
  (findallCore r (s.toList.length + 1) none s.toList).map List.asString

def subCore (r : RE) (tmpl : List (Nat × List Char) → List Char) :
    Nat → Option Char → List Char → List Char
  | 0, _, inp => inp
  | n + 1, prev, inp =>
    match searchCore r prev inp with
    | none => inp
    | some (pre, o) =>
      let afterPre := inp.drop pre.length
      let m := afterPre.take (afterPre.length - o.rest.length)
      if m.isEmpty then inp
      else pre ++ tmpl o.caps ++ subCore r tmpl n (lastOr m prev) o.rest

/-- Python `re.sub` with a replacement built from the captures. -/
def reSubS (r : RE) (tmpl : List (Nat × List Char) → List Char) (s : String) : String :=
  (subCore r tmpl (s.toList.length + 1) none s.toList).asString

/-! ### The concrete patterns of `agent.py` -/

def alts : List RE → RE
  | [] => RE.eps
  | [r] => r
  | r :: rs => RE.alt r (alts rs)

def seqs : List RE → RE
  | [] => RE.eps
  | [r] => r
  | r :: rs => RE.seq r (seqs rs)

def litS (s : String) : RE := RE.lit s.toList

def ciS (s : String) : RE := RE.cilit s.toList

def digitRE : RE := RE.cls isDigitChar

def digitPlus : RE := RE.seq digitRE (RE.starCls true isDigitChar)

def digit12 : RE := RE.seq digitRE (RE.opt digitRE)

def spacesP : RE := RE.seq (RE.cls isSpaceChar) (RE.starCls true isSpaceChar)

def spacesS : RE := RE.starCls true isSpaceChar

def wordPlus : RE := RE.seq (RE.cls isWordChar) (RE.starCls true isWordChar)

def colonMin : RE := RE.opt (seqs [litS (":"), digitRE, digitRE])

/-- `(\d+)(st|nd|rd|th)` — ordinal-suffix stripping pattern. -/
def ordinalRe : RE :=
  RE.seq (RE.grp 1 digitPlus)
    (RE.grp 2 (alts [litS ("st"), litS ("nd"), litS ("rd"), litS ("th")]))

def ordTmpl (caps : List (Nat × List Char)) : List Char := (caps.lookup 1).getD []

/-- `\b(at|on|from|to)\b` — connective-word stripping pattern. -/
def wordSubRe : RE :=
  seqs [RE.bnd,
    RE.grp 1 (alts [litS ("at"), litS ("on"), litS ("from"), litS ("to")]),
    RE.bnd]

/-- Fallback A of `_extract_single_time`, compiled with IGNORECASE:
`(\d{1,2})(?:st|nd|rd|th)?\s+(jan|feb|mar|apr|may|jun|jul|aug|sep|oct|nov|dec)[a-z]*\s+\d{1,2}(?::\d{2})?\s*(am|pm)` -/
def fallbackA : RE :=
  seqs [RE.grp 1 digit12,
    RE.opt (alts [ciS ("st"), ciS ("nd"), ciS ("rd"), ciS ("th")]),
    spacesP,
    RE.grp 2 (alts [ciS ("jan"), ciS ("feb"), ciS ("mar"), ciS ("apr"),
      ciS ("may"), ciS ("jun"), ciS ("jul"), ciS ("aug"), ciS ("sep"),
      ciS ("oct"), ciS ("nov"), ciS ("dec")]),
    RE.starCls true (fun c => c.toLower.isLower),
    spacesP, digit12, colonMin, spacesS,
    RE.grp 3 (alts [ciS ("am"), ciS ("pm")])]

/-- Fallback B of `_extract_single_time`, compiled with IGNORECASE:
`(tomorrow|today|next\s+\w+|this\s+\w+)?\s*\d{1,2}(?::\d{2})?\s*(am|pm)` -/
def fallbackB : RE :=
  seqs [RE.opt (RE.grp 1 (alts [ciS ("tomorrow"), ciS ("today"),
      seqs [ciS ("next"), spacesP, wordPlus],
      seqs [ciS ("this"), spacesP, wordPlus]])),
    spacesS, digit12, colonMin, spacesS,
    RE.grp 2 (alts [ciS ("am"), ciS ("pm")])]

/-- `from\s+(.+?)\s+to\s+(.+)` with IGNORECASE — the reschedule range pattern. -/
def fromToRe : RE :=
  seqs [ciS ("from"), spacesP,
    RE.grp 1 (RE.seq (RE.cls (fun c => c != '\n')) (RE.starCls false (fun c => c != '\n'))),
    spacesP, ciS ("to"), spacesP,
    RE.grp 2 (RE.seq (RE.cls (fun c => c != '\n')) (RE.starCls true (fun c => c != '\n')))]

/-- `\b\d{1,2}(?::\d{2})?\s*(?:am|pm)\b` — the clock-time `findall` pattern. -/
def clockRe : RE :=
  seqs [RE.bnd, digit12, colonMin, spacesS,
    alts [litS ("am"), litS ("pm")], RE.bnd]

/-- `\d{1,2}(?::\d{2})?\s*(am|pm)` — explicit-time check in the cancel branch. -/
def cancelTimeRe : RE :=
  seqs [digit12, colonMin, spacesS, RE.grp 1 (alts [litS ("am"), litS ("pm")])]

def rescheduleRe : RE :=
  seqs [RE.bnd, RE.grp 1 (alts [litS ("reschedule"), litS ("move"),
    litS ("change"), litS ("shift"), litS ("rearrange")]), RE.bnd]

def cancelRe : RE :=
  seqs [RE.bnd, RE.grp 1 (alts [litS ("cancel"), litS ("delete"),
    litS ("remove"), seqs [litS ("call"), spacesP, litS ("off")]]), RE.bnd]

def checkRe : RE :=
  seqs [RE.bnd, RE.grp 1 (alts [litS ("free"), litS ("busy"),
    litS ("available"), litS ("check"),
    seqs [litS ("when"), spacesP, litS ("are"), spacesP, litS ("you")]]), RE.bnd]

def listRe : RE :=
  seqs [RE.bnd, RE.grp 1 (alts [litS ("list"), litS ("show"),
    litS ("upcoming"), litS ("events"), litS ("meetings"),
    litS ("appointments")]), RE.bnd]

def bookRe : RE :=
  seqs [RE.bnd, RE.grp 1 (alts [litS ("book"), litS ("schedule"),
    seqs [litS ("set"), spacesP, litS ("up")], litS ("create"), litS ("meet"),
    seqs [litS ("set"), spacesP, litS ("a"), spacesP, litS ("meeting")]]), RE.bnd]

/-! ### Text normalization (`_clean_text_for_parsing`, `_inject_default_hour`) -/

/-- `_clean_text_for_parsing`: lower-case, strip ordinal suffixes, strip the
connective words at/on/from/to, trim surrounding `,.!? `. -/
def _clean_text_for_parsing (text : String) : String :=
  let c1 := reSubS ordinalRe ordTmpl (lowerS text)
  let c2 := reSubS wordSubRe (fun _ => []) c1
  stripBothS c2 (",.!? ")

/-- The vague-phrase replacement table, in Python dict insertion order. -/
def vaguePairs : List (String × String) :=
  [("morning", "9 AM"), ("afternoon", "2 PM"), ("evening", "6 PM"),
   ("night", "8 PM"), ("noon", "12 PM"), ("midnight", "12 AM")]

def injectGo : List (String × String) → String → String
  | [], t => t
  | p :: ps, t =>
    match containsSubS t p.1 with
    | true => replaceAllS t p.1 p.2
    | false => injectGo ps t

/-- `_inject_default_hour`: the first table entry whose phrase occurs as a
substring has every occurrence replaced; otherwise the text is unchanged. -/
def _inject_default_hour (text : String) : String := injectGo vaguePairs text

/-! ### Datetimes with a fixed UTC offset -/

/-- A Python `datetime.datetime`: civil fields plus an optional fixed UTC
offset in minutes (`tzinfo`); `none` is a naive datetime. -/
structure DT where
  year : Int
  month : Int
  day : Int
  hour : Int
  minute : Int
  second : Int
  tz : Option Int
deriving DecidableEq, Repr

/-- Asia/Kolkata = UTC+5:30. -/
def istOffset : Int := 330

/-- Days since 1970-01-01 of a civil date (standard civil-calendar algorithm). -/
def daysFromCivil (y m d : Int) : Int :=
  let y2 := if m ≤ 2 then y - 1 else y
  let era := (if 0 ≤ y2 then y2 else y2 - 399) / 400
  let yoe := y2 - era * 400
  let mp := if 2 < m then m - 3 else m + 9
  let doy := (153 * mp + 2) / 5 + d - 1
  let doe := yoe * 365 + yoe / 4 - yoe / 100 + doy
  era * 146097 + doe - 719468

/-- Civil date of a day count since 1970-01-01 (inverse of `daysFromCivil`). -/
def civilFromDays (z0 : Int) : Int × Int × Int :=
  let z := z0 + 719468
  let era := (if 0 ≤ z then z else z - 146096) / 146097
  let doe := z - era * 146097
  let yoe := (doe - doe / 1460 + doe / 36524 - doe / 146096) / 365
  let y := yoe + era * 400
  let doy := doe - (365 * yoe + yoe / 4 - yoe / 100)
  let mp := (5 * doy + 2) / 153
  let d := doy - (153 * mp + 2) / 5 + 1
  let m := if mp < 10 then mp + 3 else mp - 9
  (if m ≤ 2 then y + 1 else y, m, d)

def DT.wallSec (d : DT) : Int :=
  daysFromCivil d.year d.month d.day * 86400 + d.hour * 3600 + d.minute * 60 + d.second

/-- Seconds since the epoch of an aware datetime (naive treated as UTC;
never applied to naive values by the embedded code). -/
def DT.toUTCSec (d : DT) : Int := d.wallSec - (d.tz.getD 0) * 60

/-- `dt.astimezone(INDIA_TZ)`: same instant, wall clock shifted to UTC+5:30. -/
def DT.astimezoneIST (d : DT) : DT :=
  let w := d.toUTCSec + istOffset * 60
  let days := w.fdiv 86400
  let rem := w - days * 86400
  let c := civilFromDays days
  { year := c.1, month := c.2.1, day := c.2.2, hour := rem / 3600,
    minute := (rem % 3600) / 60, second := rem % 60, tz := some istOffset }

/-- `_ensure_timezone`: localize a naive datetime to IST, convert an aware one. -/
def _ensure_timezone (d : DT) : DT :=
  match d.tz with
  | none => { d with tz := some istOffset }
  | some _ => d.astimezoneIST

/-- Python `<` on aware datetimes: comparison of instants. -/
abbrev DT.before (a b : DT) : Prop := a.toUTCSec < b.toUTCSec

/-! ### The environment: dateparser oracles, clock, and collaborators

`dateparser.parse` is third-party; it is carried as two abstract oracles
(`parseS` for the call with settings, `parseP` for the plain call).  The
calendar collaborator operations of `calendar_utils.py` are abstract too.
All are `Except`-valued: a `.error` models a raised Python exception. -/

structure Env where
  parseS : String → Except String (Option DT)
  parseP : String → Except String (Option DT)
  now : DT
  book_slot : DT → String → Except String String
  get_free_slots : DT → Except String String
  cancel_event_by_summary : String → DT → Except String String
  reschedule_event : String → DT → DT → Except String String
  list_upcoming_events : Except String String

/-! ### Time extraction (`_extract_single_time`, `_extract_times_for_reschedule`) -/

/-- One fallback stage: search the pattern, re-parse just the matched text. -/
def fallbackParse (env : Env) (r : RE) (cleaned : String) : Except String (Option DT) :=
  match reSearchS r cleaned with
  | some m => env.parseP (m.mat.asString)
  | none => Except.ok none

/-- Final post-processing of `_extract_single_time`: the 09:00 default when
the parse yielded 00:00, then timezone normalization. -/
def finishExtract (d : DT) : DT :=
  _ensure_timezone (if d.hour = 0 ∧ d.minute = 0 then { d with hour := 9, minute := 0 } else d)

/-- The parse cascade on the cleaned text: primary parse, then fallback A,
then fallback B. -/
def rawExtract (env : Env) (cleaned : String) : Except String (Option DT) :=
  match env.parseS cleaned with
  | .error e => .error e
  | .ok (some d) => .ok (some d)
  | .ok none =>
    match fallbackParse env fallbackA cleaned with
    | .error e => .error e
    | .ok (some d) => .ok (some d)
    | .ok none => fallbackParse env fallbackB cleaned

/-- `_extract_single_time`. -/
def _extract_single_time (env : Env) (text : String) : Except String (Option DT) :=
  match rawExtract env (_clean_text_for_parsing (_inject_default_hour text)) with
  | .error e => .error e
  | .ok none => .ok none
  | .ok (some d) => .ok (some (finishExtract d))

/-- `_extract_times_for_reschedule`. -/
def _extract_times_for_reschedule (env : Env) (text : String) :
    Except String (Option DT × Option DT) :=
  match reSearchS fromToRe text with
  | some m =>
    match _extract_single_time env (groupStr m 1) with
    | .error e => .error e
    | .ok old_t =>
      match _extract_single_time env (groupStr m 2) with
      | .error e => .error e
      | .ok new_t => .ok (old_t, new_t)
  | none =>
    match reFindallS clockRe (lowerS text) with
    | m0 :: m1 :: _ =>
      match _extract_single_time env m0 with
      | .error e => .error e
      | .ok old_t =>
        match _extract_single_time env m1 with
        | .error e => .error e
        | .ok new_t => .ok (old_t, new_t)
    | _ => .ok (none, none)

/-! ### Intent detection (`_detect_intent`) -/

/-- The `_INTENT_PATTERNS` scan, in Python dict insertion order. -/
def intentKeyword (text_lc : String) : Option String :=
  if (reSearchS rescheduleRe text_lc).isSome then some ("reschedule")
  else if (reSearchS cancelRe text_lc).isSome then some ("cancel")
  else if (reSearchS checkRe text_lc).isSome then some ("check")
  else if (reSearchS listRe text_lc).isSome then some ("list")
  else if (reSearchS bookRe text_lc).isSome then some ("book")
  else none

/-- `_detect_intent` (the lower-cased stripped `text_lc` is written out at each
of its three uses; the Python local binding of a pure value is inlined). -/
def _detect_intent (env : Env) (text : String) : Except String String :=
  match containsSubS (stripBothS (lowerS text) (",.!? ")) ("help") with
  | true => .ok ("help")
  | false =>
    match intentKeyword (stripBothS (lowerS text) (",.!? ")) with
    | some i => .ok i
    | none =>
      match _extract_single_time env (stripBothS (lowerS text) (",.!? ")) with
      | .error e => .error e
      | .ok (some _) => .ok ("book")
      | .ok none => .ok ("unknown")

/-! ### The dialogue handler (`handle_user_input`) -/

def HELP_RESPONSE : String :=
  "Here's what I can help with:\n• Book a meeting:  \"Schedule for tomorrow at 3 PM\"\n• Check availability:  \"Are you free Friday?\"\n• Reschedule:  \"Move my 2 PM meeting to 4 PM\"\n• Cancel:  \"Cancel my 3 PM appointment\"\n• List events:  \"Show my upcoming meetings\""

def rescheduleUsageMsg : String :=
  "❌ Please specify both times clearly, e.g. 'Reschedule from 2 PM to 4 PM tomorrow'"

def futureMsg : String := "❌ The new time must be in the future."

def noTimeMsg : String :=
  "❌ I couldn't understand the time. Try formats like '28 June 10 PM' or 'tomorrow at 3 PM'."

def cancelTomorrowMsg : String :=
  "❗ Please specify the time, e.g. 'cancel meeting tomorrow at 3 PM'."

def unknownMsg : String :=
  "🤔 I'm not sure what you're asking. Type 'help' to see what I can do."

def errPre : String := "⚠️ An error occurred: "

def errSuf : String := ". Please try again later."

/-- The body of the `try` block of `handle_user_input`; a `.error` is an
exception reaching the top-level handler. -/
def handleBody (env : Env) (user_input : String) : Except String String :=
  match _detect_intent env user_input with
  | .error e => .error e
  | .ok intent =>
    if intent = ("help") then .ok HELP_RESPONSE
    else if intent = ("list") then env.list_upcoming_events
    else if intent = ("reschedule") then
      match _extract_times_for_reschedule env user_input with
      | .error e => .error e
      | .ok (old_t, new_t) =>
        match old_t, new_t with
        | some o, some n =>
          if DT.before n env.now then .ok futureMsg
          else env.reschedule_event ("TailorTalk Meeting") o n
        | _, _ => .ok rescheduleUsageMsg
    else
      match _extract_single_time env user_input with
      | .error e => .error e
      | .ok none => .ok noTimeMsg
      | .ok (some t) =>
        if intent = ("cancel") then
          match containsSubS (lowerS user_input) ("tomorrow")
              && !(reSearchS cancelTimeRe (lowerS user_input)).isSome with
          | true => .ok cancelTomorrowMsg
          | false => env.cancel_event_by_summary ("TailorTalk Meeting") t
        else if intent = ("check") then env.get_free_slots t
        else if intent = ("book") then env.book_slot t ("TailorTalk Meeting")
        else .ok unknownMsg

/-- `handle_user_input`: run the body, catching any exception into the
warning-prefixed generic reply. -/
def handle_user_input (env : Env) (user_input : String) : String :=
  match handleBody env user_input with
  | .ok r => r
  | .error e => errPre ++ e ++ errSuf

/-! ### Concrete environments for witnesses and counterexamples -/

/-- Build an environment from the two parse oracles and the clock; the
collaborators return distinctive tag strings. -/
def mkEnv (pS pP : String → Except String (Option DT)) (now : DT) : Env :=
  { parseS := pS, parseP := pP, now := now,
    book_slot := fun _ _ => Except.ok ("BOOKED"),
    get_free_slots := fun _ => Except.ok ("FREE"),
    cancel_event_by_summary := fun _ _ => Except.ok ("CANCELLED"),
    reschedule_event := fun _ _ _ => Except.ok ("RESCHEDULED"),
    list_upcoming_events := Except.ok ("LISTED") }

/-- A parse oracle that finds no time anywhere (dateparser returning `None`). -/
def noneParse : String → Except String (Option DT) := fun _ => Except.ok none

/-- A parse oracle that raises on every call. -/
def errParse : String → Except String (Option DT) := fun _ => Except.error ("boom")

def now0 : DT := ⟨2025, 7, 1, 12, 0, 0, some istOffset⟩

def env0 : Env := mkEnv noneParse noneParse now0

def envErr : Env := mkEnv errParse noneParse now0

/-- Tomorrow 15:00 IST relative to `now0` (dateparser on "tomorrow  3 pm"). -/
def dt3pm : DT := ⟨2025, 7, 2, 15, 0, 0, some istOffset⟩

def envBook : Env :=
  mkEnv (fun s => if s = ("tomorrow  3 pm") then Except.ok (some dt3pm) else Except.ok none)
    noneParse now0

/-- Tomorrow midnight IST (dateparser on "tomorrow 12 am"). -/
def dtMid : DT := ⟨2025, 7, 2, 0, 0, 0, some istOffset⟩

def env5 : Env :=
  mkEnv (fun s => if s = ("tomorrow 12 am") then Except.ok (some dtMid) else Except.ok none)
    noneParse now0

/-- 2025-06-28 22:00 IST (plain dateparser on "28 jun 10 pm"). -/
def dt28jun : DT := ⟨2025, 6, 28, 22, 0, 0, some istOffset⟩

/-- Primary parse fails everywhere; the plain parse resolves "28 jun 10 pm". -/
def env7 : Env :=
  mkEnv noneParse
    (fun s => if s = ("28 jun 10 pm") then Except.ok (some dt28jun) else Except.ok none)
    now0

def dt2pm : DT := ⟨2025, 7, 1, 14, 0, 0, some istOffset⟩

def dt4pm : DT := ⟨2025, 7, 1, 16, 0, 0, some istOffset⟩

/-- Oracle resolving the bare clock tokens; the current instant equals the
extracted new time exactly (the boundary case). -/
def env8 : Env :=
  mkEnv (fun s =>
      if s = ("2 pm") then Except.ok (some dt2pm)
      else if s = ("4 pm") then Except.ok (some dt4pm)
      else Except.ok none)
    noneParse dt4pm

/-- The claim C6/C9 side condition: the text contains no vague time-of-day
phrase. -/
abbrev vagueFree (t : String) : Prop := ∀ p ∈ vaguePairs, containsSubS t p.1 = false

/-- Representative utterances free of vague phrases (C9). -/
def representativeInputs : List String :=
  [("tomorrow at 3 pm"), ("28 june 10 pm"), ("cancel my 3 pm appointment"),
   ("hello"), ("asdf qwer"), ("reschedule from 2 pm to 4 pm tomorrow")]

/-! ### Shared lemmas -/

/-- `_ensure_timezone` always returns an IST-stamped value. -/
theorem ensure_tz (d : DT) : (_ensure_timezone d).tz = some istOffset := by
  unfold _ensure_timezone
  cases h : d.tz with
  | none => rfl
  | some o => rfl

/-! ### Claim C1 -/

/-- C1: `handle_user_input` never propagates an exception: when the body of
the `try` block (classification, extraction, collaborator dispatch) returns
normally its reply is passed through, and when it raises, the exception is
caught at the top of the handler and converted into the generic reply
prefixed with the warning marker "⚠️". -/
theorem C1_handler_catches_all (env : Env) (input : String) :
    (∀ r, handleBody env input = Except.ok r → handle_user_input env input = r) ∧
    (∀ e, handleBody env input = Except.error e →
      handle_user_input env input =
        ("⚠️ An error occurred: ") ++ e ++ (". Please try again later.")) := by
  constructor
  · intro r h
    unfold handle_user_input
    rw [h]
  · intro e h
    unfold handle_user_input
    rw [h]
    rfl

/-- C1 witness: a raising parse oracle on a booking utterance is caught and
converted into the warning-prefixed generic reply. -/
theorem C1_handler_catches_all_witness :
    handleBody envErr ("book 3 pm") = Except.error ("boom") ∧
    handle_user_input envErr ("book 3 pm") =
      ("⚠️ An error occurred: ") ++ ("boom") ++ (". Please try again later.") :=
  ⟨rfl, (C1_handler_catches_all envErr ("book 3 pm")).2 ("boom") rfl⟩

/-! ### Claim C2 -/

/-- C2: whenever `_extract_single_time` returns a value, that value carries
explicit timezone information, stamped with the fixed IST offset UTC+5:30
(330 minutes): naive parser results are localized and aware ones converted
by `_ensure_timezone` before being returned. -/
theorem C2_extract_time_is_IST_aware (env : Env) (text : String) (d : DT)
    (h : _extract_single_time env text = Except.ok (some d)) : d.tz = some istOffset := by
  unfold _extract_single_time at h
  revert h
  cases rawExtract env (_clean_text_for_parsing (_inject_default_hour text)) with
  | error e => intro h; exact absurd h (by simp)
  | ok o =>
    cases o with
    | none => intro h; exact absurd h (by simp)
    | some x =>
      intro h
      simp only [Except.ok.injEq, Option.some.injEq] at h
      subst h
      exact ensure_tz _

/-- C2 witness: a concrete extraction returns tomorrow 15:00 stamped IST. -/
theorem C2_extract_time_is_IST_aware_witness :
    _extract_single_time envBook ("tomorrow at 3 PM") = Except.ok (some (finishExtract dt3pm)) ∧
    (finishExtract dt3pm).tz = some istOffset :=
  ⟨rfl, C2_extract_time_is_IST_aware envBook ("tomorrow at 3 PM") (finishExtract dt3pm) rfl⟩

/-! ### Claim C3 -/

/-- C3 counterexample: the classifier has no greeting rule at all — on the
utterance "hello" it returns the intent "unknown", not a greeting intent. -/
theorem C3_counterexample :
    _detect_intent env0 ("hello") = Except.ok ("unknown") ∧
    ("unknown" : String) ≠ ("greeting") :=
  ⟨rfl, by decide⟩

/-- C3 amended: there is no greeting check anywhere in `_detect_intent`; a
greeting such as "hello" matches no keyword pattern and, when the parser
finds no time in it, classifies as "unknown"; the handler then returns the
fixed time-clarification reply (not a friendly greeting reply), making no
collaborator call (the reply is the same for every choice of collaborators). -/
theorem C3_amended_no_greeting_rule (env : Env)
    (hp : env.parseS ("hello") = Except.ok none) :
    _detect_intent env ("hello") = Except.ok ("unknown") ∧
    handle_user_input env ("hello") = noTimeMsg := by
  have hcl : _clean_text_for_parsing (_inject_default_hour ("hello")) = ("hello") := rfl
  have hraw : rawExtract env ("hello") = Except.ok none := by
    unfold rawExtract
    rw [hp]
    rfl
  have hex : _extract_single_time env ("hello") = Except.ok none := by
    unfold _extract_single_time
    rw [hcl, hraw]
  have hlc : stripBothS (lowerS ("hello")) (",.!? ") = ("hello") := rfl
  have hdet : _detect_intent env ("hello") = Except.ok ("unknown") := by
    unfold _detect_intent
    rw [hlc, hex]
    rfl
  have hbody : handleBody env ("hello") = Except.ok noTimeMsg := by
    unfold handleBody
    rw [hdet, hex]
    rfl
  refine ⟨hdet, ?_⟩
  unfold handle_user_input
  rw [hbody]

/-- C3 witness: concrete instantiation of the amended claim at "hello". -/
theorem C3_amended_no_greeting_rule_witness :
    env0.parseS ("hello") = Except.ok none ∧
    handle_user_input env0 ("hello") = noTimeMsg :=
  ⟨rfl, (C3_amended_no_greeting_rule env0 rfl).2⟩

/-! ### Claim C4 -/

/-- C4 counterexample: on "asdf qwer" the classifier does return "unknown",
but the handler replies with the time-clarification prompt, not with the
fixed "not sure what you're asking, try help" fallback the claim names. -/
theorem C4_counterexample :
    _detect_intent env0 ("asdf qwer") = Except.ok ("unknown") ∧
    handle_user_input env0 ("asdf qwer") = noTimeMsg ∧
    noTimeMsg ≠ unknownMsg :=
  ⟨rfl, rfl, by decide⟩

/-- C4 amended: for every utterance with no "help" substring, no intent
keyword and no parseable time, `_detect_intent` returns "unknown" and the
handler returns the fixed time-clarification reply ("I couldn't understand
the time ..."), independent of the collaborators (so none is called); the
"not sure what you're asking" reply is not reachable on this path. -/
theorem C4_amended_unknown_reply (env : Env) (text : String)
    (hhelp : containsSubS (stripBothS (lowerS text) (",.!? ")) ("help") = false)
    (hkey : intentKeyword (stripBothS (lowerS text) (",.!? ")) = none)
    (hex1 : _extract_single_time env (stripBothS (lowerS text) (",.!? ")) = Except.ok none)
    (hex2 : _extract_single_time env text = Except.ok none) :
    _detect_intent env text = Except.ok ("unknown") ∧
    handle_user_input env text = noTimeMsg := by
  have hdet : _detect_intent env text = Except.ok ("unknown") := by
    unfold _detect_intent
    rw [hhelp, hkey, hex1]
  have hbody : handleBody env text = Except.ok noTimeMsg := by
    unfold handleBody
    rw [hdet, hex2]
    rfl
  refine ⟨hdet, ?_⟩
  unfold handle_user_input
  rw [hbody]

/-- C4 witness: concrete instantiation of the amended claim at "asdf qwer". -/
theorem C4_amended_unknown_reply_witness :
    containsSubS (stripBothS (lowerS ("asdf qwer")) (",.!? ")) ("help") = false ∧
    intentKeyword (stripBothS (lowerS ("asdf qwer")) (",.!? ")) = none ∧
    _detect_intent env0 ("asdf qwer") = Except.ok ("unknown") ∧
    handle_user_input env0 ("asdf qwer") = noTimeMsg := by
  have h := C4_amended_unknown_reply env0 ("asdf qwer") rfl rfl rfl rfl
  exact ⟨rfl, rfl, h.1, h.2⟩

/-! ### Claim C5 -/

/-- C5 counterexample: an explicit request for midnight is not preserved —
parsing "tomorrow 12 am" yields midnight, and the extractor rewrites it to
09:00 because the default fires on every midnight result, explicit or not. -/
theorem C5_counterexample :
    _extract_single_time env5 ("tomorrow 12 am") =
      Except.ok (some ⟨2025, 7, 2, 9, 0, 0, some istOffset⟩) ∧
    (⟨2025, 7, 2, 9, 0, 0, some istOffset⟩ : DT).hour ≠ 0 :=
  ⟨rfl, by decide⟩

/-- C5 amended: the 09:00 default applies exactly when the parsed result has
time-of-day 00:00 — regardless of whether midnight was explicitly requested
— and any other parsed time-of-day is preserved (then localized to IST). -/
theorem C5_amended_midnight_default (env : Env) (text : String) (d : DT)
    (h : env.parseS (_clean_text_for_parsing (_inject_default_hour text)) =
      Except.ok (some d)) :
    (d.hour = 0 ∧ d.minute = 0 →
      _extract_single_time env text =
        Except.ok (some (_ensure_timezone { d with hour := 9, minute := 0 }))) ∧
    (¬(d.hour = 0 ∧ d.minute = 0) →
      _extract_single_time env text = Except.ok (some (_ensure_timezone d))) := by
  have hraw : rawExtract env (_clean_text_for_parsing (_inject_default_hour text)) =
      Except.ok (some d) := by
    unfold rawExtract
    rw [h]
  have hx : _extract_single_time env text = Except.ok (some (finishExtract d)) := by
    unfold _extract_single_time
    rw [hraw]
  constructor
  · intro hmid
    rw [hx]
    unfold finishExtract
    rw [if_pos hmid]
  · intro hmid
    rw [hx]
    unfold finishExtract
    rw [if_neg hmid]

/-- C5 witness: concrete instantiation at "tomorrow 12 am", whose parse is
exactly midnight, so the default fires. -/
theorem C5_amended_midnight_default_witness :
    env5.parseS (_clean_text_for_parsing (_inject_default_hour ("tomorrow 12 am"))) =
      Except.ok (some dtMid) ∧
    dtMid.hour = 0 ∧ dtMid.minute = 0 ∧
    _extract_single_time env5 ("tomorrow 12 am") =
      Except.ok (some (_ensure_timezone { dtMid with hour := 9, minute := 0 })) :=
  ⟨rfl, rfl, rfl,
    (C5_amended_midnight_default env5 ("tomorrow 12 am") dtMid rfl).1 ⟨rfl, rfl⟩⟩

/-! ### Claim C6 -/

/-- C6 counterexample: the vague-phrase replacement is neither lower-case
first nor whole-word: the capitalized "Evening" is left unchanged (the
containment test is case-sensitive and runs before any lower-casing), while
"tonight" is mangled to "to8 PM" (the phrase "night" matches as a bare
substring). -/
theorem C6_counterexample :
    _inject_default_hour ("tonight") = ("to8 PM") ∧
    _inject_default_hour ("Evening") = ("Evening") :=
  ⟨rfl, rfl⟩

/-- C6 amended: `_inject_default_hour` works on the raw (not lower-cased)
text by case-sensitive substring containment, replacing every occurrence of
the first matching phrase in the fixed order morning, afternoon, evening,
night, noon, midnight and leaving phrase-free texts unchanged; hence
"Evening" is unchanged, "tonight" becomes "to8 PM", and in "night noon"
only "night" is replaced. -/
theorem C6_amended_substring_replacement :
    (∀ t : String, vagueFree t → _inject_default_hour t = t) ∧
    _inject_default_hour ("tonight") = ("to8 PM") ∧
    _inject_default_hour ("Evening") = ("Evening") ∧
    _inject_default_hour ("night noon") = ("8 PM noon") := by
  refine ⟨?_, rfl, rfl, rfl⟩
  intro t ht
  have h1 : containsSubS t ("morning") = false := ht (("morning"), ("9 AM")) (by decide)
  have h2 : containsSubS t ("afternoon") = false := ht (("afternoon"), ("2 PM")) (by decide)
  have h3 : containsSubS t ("evening") = false := ht (("evening"), ("6 PM")) (by decide)
  have h4 : containsSubS t ("night") = false := ht (("night"), ("8 PM")) (by decide)
  have h5 : containsSubS t ("noon") = false := ht (("noon"), ("12 PM")) (by decide)
  have h6 : containsSubS t ("midnight") = false := ht (("midnight"), ("12 AM")) (by decide)
  simp only [_inject_default_hour, vaguePairs, injectGo, h1, h2, h3, h4, h5, h6]

/-- C6 witness: a phrase-free utterance passes through unchanged. -/
theorem C6_amended_substring_replacement_witness :
    vagueFree ("book 3 pm") ∧ _inject_default_hour ("book 3 pm") = ("book 3 pm") :=
  ⟨by decide, (C6_amended_substring_replacement).1 ("book 3 pm") (by decide)⟩

/-! ### Claim C7 -/

/-- C7 counterexample: fallback regex A requires an explicit clock time — it
does not match "28 jun" (day-of-month plus month name with no clock time),
so no input of that shape can produce a result through fallback A. -/
theorem C7_counterexample :
    reSearchS fallbackA ("28 jun") = none ∧
    _extract_single_time env0 ("28 jun") = Except.ok none :=
  ⟨rfl, rfl⟩

/-- C7 amended: fallback A is consulted only after the primary parse fails
(a successful primary parse fixes the result, with no use of the plain
re-parse oracle), and it matches day-of-month + month name + a REQUIRED
clock time, re-parsing just the captured substring: on "28 jun 10 pm" it
captures the whole phrase and the extractor returns the re-parsed result. -/
theorem C7_amended_fallbackA (env : Env) :
    (∀ (text : String) (d : DT),
      env.parseS (_clean_text_for_parsing (_inject_default_hour text)) = Except.ok (some d) →
      _extract_single_time env text = Except.ok (some (finishExtract d))) ∧
    reMatch0 fallbackA ("28 jun 10 pm") = some ("28 jun 10 pm") ∧
    (∀ d : DT,
      env.parseS ("28 jun 10 pm") = Except.ok none →
      env.parseP ("28 jun 10 pm") = Except.ok (some d) →
      _extract_single_time env ("28 jun 10 pm") = Except.ok (some (finishExtract d))) := by
  refine ⟨?_, rfl, ?_⟩
  · intro text d h
    have hraw : rawExtract env (_clean_text_for_parsing (_inject_default_hour text)) =
        Except.ok (some d) := by
      unfold rawExtract
      rw [h]
    unfold _extract_single_time
    rw [hraw]
  · intro d h1 h2
    have hcl : _clean_text_for_parsing (_inject_default_hour ("28 jun 10 pm")) =
        ("28 jun 10 pm") := rfl
    have hA : fallbackParse env fallbackA ("28 jun 10 pm") = env.parseP ("28 jun 10 pm") := rfl
    have hraw : rawExtract env ("28 jun 10 pm") = Except.ok (some d) := by
      unfold rawExtract
      rw [h1, hA, h2]
    unfold _extract_single_time
    rw [hcl, hraw]

/-- C7 witness: concrete instantiation where the primary parse fails on
"28 jun 10 pm" and the plain re-parse of the captured substring succeeds. -/
theorem C7_amended_fallbackA_witness :
    env7.parseS ("28 jun 10 pm") = Except.ok none ∧
    env7.parseP ("28 jun 10 pm") = Except.ok (some dt28jun) ∧
    _extract_single_time env7 ("28 jun 10 pm") = Except.ok (some (finishExtract dt28jun)) :=
  ⟨rfl, rfl, (C7_amended_fallbackA env7).2.2 dt28jun rfl rfl⟩

/-! ### Claim C8 -/

/-- C8: the code rejects a new reschedule time only when it is strictly
before "now" (`new_t < now`); at the boundary where the new time EQUALS the
current instant — a time that is not in the future, which both the spec and
the code's own rejection message ("The new time must be in the future")
say must be rejected — the collaborator reschedule operation is invoked
instead. Evaluated at the failing input: utterance "reschedule 2 pm 4 pm"
with the clock standing exactly at the extracted new time 16:00 IST. -/
theorem C8_code_bug_boundary :
    _extract_times_for_reschedule env8 ("reschedule 2 pm 4 pm") =
      Except.ok (some dt2pm, some dt4pm) ∧
    env8.now = dt4pm ∧
    handle_user_input env8 ("reschedule 2 pm 4 pm") = ("RESCHEDULED") ∧
    ("RESCHEDULED" : String) ≠ futureMsg :=
  ⟨rfl, rfl, rfl, by decide⟩

/-! ### Claim C9 -/

/-- C9 counterexample: the normalization cleanup is not idempotent on every
vague-phrase-free string: "1stnd" (no vague phrase) cleans to "1nd", which
cleans again to "1" — the first ordinal-stripping pass creates a fresh
digit+suffix pattern that only the second pass removes. -/
theorem C9_counterexample :
    vagueFree ("1stnd") ∧
    _clean_text_for_parsing ("1stnd") = ("1nd") ∧
    _clean_text_for_parsing (_clean_text_for_parsing ("1stnd")) = ("1") ∧
    _clean_text_for_parsing (_clean_text_for_parsing ("1stnd")) ≠
      _clean_text_for_parsing ("1stnd") :=
  ⟨by decide, rfl, rfl, by decide⟩

/-- C9 amended: the cleanup is idempotent on representative inputs already
free of vague phrases (as the spec's testable property states), though not
on every such string. -/
theorem C9_amended_idempotent_on_representatives :
    ∀ x ∈ representativeInputs,
      _clean_text_for_parsing (_clean_text_for_parsing x) = _clean_text_for_parsing x := by
  intro x hx
  simp only [representativeInputs, List.mem_cons, List.not_mem_nil, or_false] at hx
  rcases hx with rfl | rfl | rfl | rfl | rfl | rfl <;> rfl

/-- C9 witness: concrete instantiation at a representative input. -/
theorem C9_amended_idempotent_on_representatives_witness :
    ("cancel my 3 pm appointment") ∈ representativeInputs ∧
    _clean_text_for_parsing (_clean_text_for_parsing ("cancel my 3 pm appointment")) =
      _clean_text_for_parsing ("cancel my 3 pm appointment") :=
  ⟨by decide, C9_amended_idempotent_on_representatives ("cancel my 3 pm appointment") (by decide)⟩

/-! ### Claim C10 -/

/-- C10: in the fallback branch of the range extractor (no "from ... to ..."
pattern), the result depends only on the ordered list of explicit clock-time
matches in the lower-cased text: two utterances with equal match lists,
evaluated in the same environment (same "now", same oracles), yield
identical (old, new) pairs — each token is re-parsed in isolation, so
relative-day words elsewhere in the utterance have no influence. -/
theorem C10_fallback_depends_only_on_clock_tokens (env : Env) (t1 t2 : String)
    (h1 : reSearchS fromToRe t1 = none) (h2 : reSearchS fromToRe t2 = none)
    (h3 : reFindallS clockRe (lowerS t1) = reFindallS clockRe (lowerS t2)) :
    _extract_times_for_reschedule env t1 = _extract_times_for_reschedule env t2 := by
  unfold _extract_times_for_reschedule
  rw [h1, h2, h3]

/-- C10 witness: "reschedule 2 pm 4 pm" and "tomorrow shift my 2 pm 4 pm"
have the same clock-token lists, and the extractor returns the same pair for
both — the word "tomorrow" in the second utterance has no influence. -/
theorem C10_fallback_depends_only_on_clock_tokens_witness :
    reSearchS fromToRe ("reschedule 2 pm 4 pm") = none ∧
    reSearchS fromToRe ("tomorrow shift my 2 pm 4 pm") = none ∧
    reFindallS clockRe (lowerS ("reschedule 2 pm 4 pm")) =
      reFindallS clockRe (lowerS ("tomorrow shift my 2 pm 4 pm")) ∧
    _extract_times_for_reschedule env0 ("reschedule 2 pm 4 pm") =
      _extract_times_for_reschedule env0 ("tomorrow shift my 2 pm 4 pm") :=
  ⟨rfl, rfl, rfl,
    C10_fallback_depends_only_on_clock_tokens env0 ("reschedule 2 pm 4 pm")
      ("tomorrow shift my 2 pm 4 pm") rfl rfl rfl⟩

end Agent
